import Mathlib

/-!
# Campus Event Planner — registration & capacity-management subsystem

A shallow embedding of the event model and route handlers of the Go backend
(`backend/models/event.go`, the events/registration route files), together
with theorems settling the claims of the specification about registration
uniqueness, capacity non-negativity, ownership-based authorization, and
error surfacing.

The relational store is modelled as explicit state: the `events` table as a
`List Event`, the `registrations` table as a `List (Int × Int)` of
(event_id, user_id) rows.  Go `int64` values are modelled as `Int` (no
arithmetic in the subsystem can overflow: values are only compared and
stored).  `time.Time` is modelled as an integer timestamp and the
`*float64` price as an optional integer — no operation in scope inspects
either value.  Handlers return the HTTP status code and message they write
via `context.JSON`, paired with the resulting store state.
-/

/-- The `Event` struct of `backend/models/event.go`.  Field names follow the
Go struct; `DateTime` (a `time.Time`) is an integer timestamp and `Price`
(a `*float64`, never inspected by the subsystem) an optional integer. -/
structure Event where
  id : Int
  name : String
  description : String
  location : String
  dateTime : Int
  userID : Int
  imageData : String
  color : String
  price : Option Int
  priority : String
  ticketsAvailable : Int
  deriving Repr, DecidableEq

/-- The relational store visible to the subsystem: the `events` table and the
`registrations` table of (event_id, user_id) rows. -/
structure DBState where
  events : List Event
  registrations : List (Int × Int)
  deriving Repr, DecidableEq

/-- Model function `models.GetEventByID`: `SELECT ... FROM events WHERE id = ?` via
`QueryRow` returns the first matching row; `Scan` fails with
`sql.ErrNoRows` when there is none, which the model surfaces as an error —
here `none`. -/
def GetEventByID (id : Int) (events : List Event) : Option Event :=
  events.find? (fun e => e.id == id)

/-- The number of `registrations` rows matching (event_id, user_id):
`SELECT COUNT(*) FROM registrations WHERE event_id = ? AND user_id = ?`,
used by both `Register` and `CancelRegistration`. -/
def registrationCount (eventID userID : Int) (regs : List (Int × Int)) : Nat :=
  (regs.filter (fun r => r.1 == eventID && r.2 == userID)).length

/-- Model function `Event.Register` (`models/event.go` lines 192–220): counts matching
ledger rows; if the count is positive it fails with
"User already registered for this event", otherwise it inserts the
(event_id, user_id) row. -/
def Event.Register (e : Event) (userID : Int) (regs : List (Int × Int)) :
    Except String (List (Int × Int)) :=
  if registrationCount e.id userID regs > 0 then
    .error "User already registered for this event"
  else
    .ok (regs ++ [(e.id, userID)])

/-- Model function `Event.CancelRegistration` (`models/event.go` lines 222–251): counts
matching ledger rows; if the count is zero it fails with
"Event does not exist or has already been cancelled", otherwise it runs
`DELETE FROM registrations WHERE event_id = ? AND user_id = ?`, removing
every matching row. -/
def Event.CancelRegistration (e : Event) (userID : Int) (regs : List (Int × Int)) :
    Except String (List (Int × Int)) :=
  if registrationCount e.id userID regs == 0 then
    .error "Event does not exist or has already been cancelled"
  else
    .ok (regs.filter (fun r => !(r.1 == e.id && r.2 == userID)))

/-- Model function `models.UpdateEventTickets` (`models/event.go` lines 159–178): rejects a
negative count with "ticket count cannot be negative", otherwise runs
`UPDATE events SET ticketsAvailable = ? WHERE id = ?`. -/
def UpdateEventTickets (eventID ticketsAvailable : Int) (events : List Event) :
    Except String (List Event) :=
  if ticketsAvailable < 0 then
    .error "ticket count cannot be negative"
  else
    .ok (events.map (fun e =>
      if e.id == eventID then { e with ticketsAvailable := ticketsAvailable } else e))

/-- Model function `Event.Save`: `INSERT INTO events (...) VALUES (...)`; the store assigns
the fresh row id (`LastInsertId`), which the embedding passes in as
`newId`. -/
def Event.Save (e : Event) (newId : Int) (events : List Event) : List Event :=
  events ++ [{ e with id := newId }]

/-- Model function `Event.Update`: `UPDATE events SET name = ?, description = ?, location
= ?, dateTime = ?, imageData = ?, color = ?, price = ?, priority = ?,
ticketsAvailable = ? WHERE id = ?` — every matching row takes the new
field values but keeps its own `id` and `userID` (neither column is in the
SET list). -/
def Event.Update (ev : Event) (events : List Event) : List Event :=
  events.map (fun e =>
    if e.id == ev.id then { ev with id := e.id, userID := e.userID } else e)

/-- Model function `Event.Delete`: `DELETE FROM events WHERE id = ?`. -/
def Event.Delete (e : Event) (events : List Event) : List Event :=
  events.filter (fun x => !(x.id == e.id))

/-- Routes helper `checkEventAuthorization`: the requesting user is
authorized exactly when `event.UserID == userId`. -/
def checkEventAuthorization (event : Event) (userId : Int) : Bool :=
  event.userID == userId

/-- The pair a handler produces: the HTTP status code and message written
via `context.JSON`, plus (for the ticket-count route) the
`ticketsAvailable` and `eventId` echoed in the success payload. -/
structure HttpResponse where
  status : Nat
  message : String
  ticketsAvailable : Option Int := none
  eventId : Option Int := none
  deriving Repr, DecidableEq

/-- Binding of `ShouldBindJSON` for `ticketUpdateRequest`, whose single field carries
the tag `binding:"required,gte=0"`.  Under go-playground/validator
semantics on a non-pointer `int64`, `required` fails when the decoded
value is the zero value `0` (an absent field also decodes to `0`), and
`gte=0` fails when it is negative; binding succeeds exactly when the value
is positive. -/
def bindTicketUpdateRequest (n : Int) : Bool :=
  !(n == 0) && n >= 0

/-- Binding of `ShouldBindJSON` for the full `models.Event` payload: `Name`,
`Description`, `Location` and `DateTime` carry `binding:"required"`
(failing on their Go zero values: the empty string, the zero timestamp)
and `TicketsAvailable` carries `binding:"required,gte=0"` (failing on `0`
and on negatives, as in `bindTicketUpdateRequest`).  `ID`, `UserID` and
the optional metadata fields carry no binding tags. -/
def bindEventPayload (e : Event) : Bool :=
  !(e.name == "") && !(e.description == "") && !(e.location == "") &&
    !(e.dateTime == 0) && !(e.ticketsAvailable == 0) && e.ticketsAvailable >= 0

/-- Whether `pat` occurs at the start of `s` (character lists). -/
def startsWithChars : List Char → List Char → Bool
  | _, [] => true
  | [], _ :: _ => false
  | a :: as, b :: bs => a == b && startsWithChars as bs

/-- Whether `pat` occurs as a contiguous run somewhere in `s`. -/
def containsChars (pat : List Char) : List Char → Bool
  | [] => pat.isEmpty
  | a :: rest => startsWithChars (a :: rest) pat || containsChars pat rest

/-- Function `strings.Contains(s, pat)`: `pat` occurs as a contiguous substring of
`s`. -/
def stringContains (s pat : String) : Bool :=
  containsChars pat.data s.data

/-- Route handler `registerForEvent` (`routes/register.go` lines 12–40),
after the event id has been parsed from the URL: fetch the event (a failed
lookup is a 500 "Could not fetch event"), call `Event.Register`, map an
error containing "already registered" to 409 and any other error to 500,
and answer 201 on success. -/
def registerForEvent (eventId userId : Int) (s : DBState) : HttpResponse × DBState :=
  match GetEventByID eventId s.events with
  | none => (⟨500, "Could not fetch event", none, none⟩, s)
  | some event =>
    match event.Register userId s.registrations with
    | .error msg =>
      if stringContains msg "already registered" then
        (⟨409, "User already registered for this event", none, none⟩, s)
      else
        (⟨500, "Could not register for event", none, none⟩, s)
    | .ok regs => (⟨201, "Registered for event successfully", none, none⟩,
        { s with registrations := regs })

/-- Route handler `cancelRegistration` (`routes/register.go` lines 42–70),
after the event id has been parsed: fetch the event (failed lookup → 500
"Could not fetch event"), call `Event.CancelRegistration`, map an error
containing "already been cancelled" to 404 and any other error to 500, and
answer 200 on success. -/
def cancelRegistration (eventId userId : Int) (s : DBState) : HttpResponse × DBState :=
  match GetEventByID eventId s.events with
  | none => (⟨500, "Could not fetch event", none, none⟩, s)
  | some event =>
    match event.CancelRegistration userId s.registrations with
    | .error msg =>
      if stringContains msg "already been cancelled" then
        (⟨404, "Event does not exist or has already been cancelled", none, none⟩, s)
      else
        (⟨500, "Could not cancel registration", none, none⟩, s)
    | .ok regs => (⟨200, "Cancelled successfully", none, none⟩,
        { s with registrations := regs })

/-- Route handler `CreateEvent` (events routes, lines 66–89): bind the JSON
payload (a binding failure is a 400 "Could not parse data"), reject a
negative `TicketsAvailable` with 400, set the owner of the event to the
authenticated user, and `Save`.  `newId` is the store-assigned row id. -/
def CreateEvent (payload : Event) (userId newId : Int) (s : DBState) :
    HttpResponse × DBState :=
  if !(bindEventPayload payload) then
    (⟨400, "Could not parse data", none, none⟩, s)
  else if payload.ticketsAvailable < 0 then
    (⟨400, "TicketsAvailable cannot be negative", none, none⟩, s)
  else
    (⟨201, "Event created successfully", none, none⟩,
      { s with events := ({ payload with userID := userId }).Save newId s.events })

/-- Route handler `UpdateEvent` (events routes, lines 105–140): fetch the
event (failed lookup → 500), check ownership (non-owner → 401), bind the
JSON payload (failure → 400 "Could not parse data"), set the payload id
to the URL id, reject a negative `TicketsAvailable` with 400, and run
`Event.Update`. -/
def UpdateEvent (eventId userId : Int) (payload : Event) (s : DBState) :
    HttpResponse × DBState :=
  match GetEventByID eventId s.events with
  | none => (⟨500, "Could not fetch event", none, none⟩, s)
  | some event =>
    if !(checkEventAuthorization event userId) then
      (⟨401, "You are not authorized to update this event", none, none⟩, s)
    else if !(bindEventPayload payload) then
      (⟨400, "Could not parse data", none, none⟩, s)
    else if payload.ticketsAvailable < 0 then
      (⟨400, "TicketsAvailable cannot be negative", none, none⟩, s)
    else
      (⟨200, "Event updated successfully", none, none⟩,
        { s with events := ({ payload with id := eventId }).Update s.events })

/-- Route handler `DeleteEvent` (events routes, lines 142–165): fetch the
event (failed lookup → 500), check ownership (non-owner → 401), and run
`Event.Delete`. -/
def DeleteEvent (eventId userId : Int) (s : DBState) : HttpResponse × DBState :=
  match GetEventByID eventId s.events with
  | none => (⟨500, "Could not fetch event", none, none⟩, s)
  | some event =>
    if !(checkEventAuthorization event userId) then
      (⟨401, "You are not authorized to delete this event", none, none⟩, s)
    else
      (⟨200, "Event deleted successfully", none, none⟩,
        { s with events := event.Delete s.events })

/-- Route handler `UpdateEventTicketCount` (events routes, lines 171–204):
fetch the event (failed lookup → 500), check ownership (non-owner → 401),
bind the `ticketUpdateRequest` payload (failure → 400 "Could not parse
data"), and call `models.UpdateEventTickets` — a residual model error is a
500; on success the response echoes the new count and the event id. -/
def UpdateEventTicketCount (eventId userId n : Int) (s : DBState) :
    HttpResponse × DBState :=
  match GetEventByID eventId s.events with
  | none => (⟨500, "Could not fetch event", none, none⟩, s)
  | some event =>
    if !(checkEventAuthorization event userId) then
      (⟨401, "You are not authorized to update ticket count for this event", none, none⟩, s)
    else if !(bindTicketUpdateRequest n) then
      (⟨400, "Could not parse data", none, none⟩, s)
    else
      match UpdateEventTickets eventId n s.events with
      | .error _ => (⟨500, "Could not update ticket count", none, none⟩, s)
      | .ok evs => (⟨200, "Ticket count updated successfully", some n, some eventId⟩,
          { s with events := evs })

/-- The service-level operation `UpdateTicketCount(eventId, requestingUserId,
newCount)` of spec §4.1: the composition, taken from the route handler, of
`GetEventByID`, the `checkEventAuthorization` ownership test and
`models.UpdateEventTickets` (whose negative-count rejection is the
`InvalidCapacity` failure), echoing the new count on success.  The
transport-layer JSON binding of `ticketUpdateRequest` is not part of the
service operation; it is modelled separately in `UpdateEventTicketCount`. -/
def UpdateTicketCount (eventId userId n : Int) (s : DBState) :
    HttpResponse × DBState :=
  match GetEventByID eventId s.events with
  | none => (⟨500, "Could not fetch event", none, none⟩, s)
  | some event =>
    if !(checkEventAuthorization event userId) then
      (⟨401, "You are not authorized to update ticket count for this event", none, none⟩, s)
    else
      match UpdateEventTickets eventId n s.events with
      | .error _ => (⟨500, "Could not update ticket count", none, none⟩, s)
      | .ok evs => (⟨200, "Ticket count updated successfully", some n, some eventId⟩,
          { s with events := evs })

/-- The service-level operation `CreateEvent(ownerUserId, attrs)` of spec
§4.1: the `CreateEvent` handler without the transport-layer JSON binding —
the negative-capacity check of the handler itself (`InvalidCapacity`),
then ownership assignment and `Event.Save`. -/
def CreateEventSvc (payload : Event) (userId newId : Int) (s : DBState) :
    HttpResponse × DBState :=
  if payload.ticketsAvailable < 0 then
    (⟨400, "TicketsAvailable cannot be negative", none, none⟩, s)
  else
    (⟨201, "Event created successfully", none, none⟩,
      { s with events := ({ payload with userID := userId }).Save newId s.events })

/-- The service-level operation `UpdateEvent(eventId, requestingUserId,
attrs)` of spec §4.1: the `UpdateEvent` handler without the
transport-layer JSON binding — fetch, the ownership test, the
negative-capacity check of the handler (`InvalidCapacity`), then `Event.Update`. -/
def UpdateEventSvc (eventId userId : Int) (payload : Event) (s : DBState) :
    HttpResponse × DBState :=
  match GetEventByID eventId s.events with
  | none => (⟨500, "Could not fetch event", none, none⟩, s)
  | some event =>
    if !(checkEventAuthorization event userId) then
      (⟨401, "You are not authorized to update this event", none, none⟩, s)
    else if payload.ticketsAvailable < 0 then
      (⟨400, "TicketsAvailable cannot be negative", none, none⟩, s)
    else
      (⟨200, "Event updated successfully", none, none⟩,
        { s with events := ({ payload with id := eventId }).Update s.events })

/-! ## Sample data used to exhibit concrete runs of the handlers -/

/-- A concrete event owned by user 10, with 10 tickets available. -/
def sampleEvent : Event :=
  { id := 1, name := "Hackathon", description := "Annual hackathon",
    location := "Main hall", dateTime := 1700000000, userID := 10,
    imageData := "", color := "", price := none, priority := "",
    ticketsAvailable := 10 }

/-- A store holding `sampleEvent` and an empty registration ledger. -/
def sampleState : DBState :=
  { events := [sampleEvent], registrations := [] }

/-- A well-formed creation payload (all `required` fields nonzero). -/
def samplePayload : Event :=
  { id := 0, name := "Career fair", description := "Spring career fair",
    location := "Gym", dateTime := 1700100000, userID := 0,
    imageData := "", color := "", price := none, priority := "",
    ticketsAvailable := 25 }

/-! ## Helper lemmas about the registration ledger -/

theorem registrationPred_iff (e u : Int) (r : Int × Int) :
    (r.1 == e && r.2 == u) = true ↔ r = (e, u) := by
  cases r with
  | mk a b => simp [Prod.ext_iff]

theorem registrationCount_pos_iff (e u : Int) (regs : List (Int × Int)) :
    0 < registrationCount e u regs ↔ (e, u) ∈ regs := by
  unfold registrationCount
  rw [← List.countP_eq_length_filter, List.countP_pos_iff]
  constructor
  · rintro ⟨a, ha, hp⟩
    rwa [(registrationPred_iff e u a).mp hp] at ha
  · intro h
    exact ⟨(e, u), h, by simp⟩

theorem registrationCount_eq_zero_iff (e u : Int) (regs : List (Int × Int)) :
    registrationCount e u regs = 0 ↔ (e, u) ∉ regs := by
  rw [← registrationCount_pos_iff e u regs]
  omega

theorem filter_out_pair_of_not_mem (e u : Int) (regs : List (Int × Int))
    (h : (e, u) ∉ regs) :
    regs.filter (fun r => !(r.1 == e && r.2 == u)) = regs := by
  apply List.filter_eq_self.mpr
  intro a ha
  have hne : a ≠ (e, u) := fun hEq => h (hEq ▸ ha)
  simp only [Bool.not_eq_true']
  rw [← Bool.not_eq_true]
  intro hp
  exact hne ((registrationPred_iff e u a).mp hp)

/-! ## Helper lemmas about event lookup -/

theorem GetEventByID_id {id : Int} {events : List Event} {E : Event}
    (h : GetEventByID id events = some E) : E.id = id := by
  unfold GetEventByID at h
  have := List.find?_some h
  simpa using this

theorem GetEventByID_mem {id : Int} {events : List Event} {E : Event}
    (h : GetEventByID id events = some E) : E ∈ events := by
  unfold GetEventByID at h
  exact List.mem_of_find?_eq_some h

theorem GetEventByID_update_tickets (id n : Int) (events : List Event) (E : Event)
    (h : GetEventByID id events = some E) :
    GetEventByID id (events.map (fun e =>
        if e.id == id then { e with ticketsAvailable := n } else e)) =
      some { E with ticketsAvailable := n } := by
  induction events with
  | nil => simp [GetEventByID] at h
  | cons a l ih =>
    unfold GetEventByID at h ⊢
    by_cases ha : a.id = id
    · have hb : (a.id == id) = true := by simpa using ha
      simp only [List.find?_cons, hb] at h
      injection h with h
      subst h
      simp only [List.map_cons, hb, if_true, List.find?_cons]
    · have hb : (a.id == id) = false := by simpa using ha
      simp only [List.find?_cons, hb] at h
      simp only [List.map_cons, hb, Bool.false_eq_true, if_false, List.find?_cons]
      exact ih h

/-! ## Claim theorems -/

/-- C1: for every event E owned by user O and every integer n, the
ticket-count update operation fails with `InvalidCapacity` (the
"ticket count cannot be negative" rejection of `UpdateEventTickets`) if
and only if n < 0; when n ≥ 0 it succeeds, overwrites the stored
`ticketsAvailable` counter with n (leaving every other field of E and the
registration ledger untouched), and returns n as the new count. -/
theorem c1_update_ticket_count
    (s : DBState) (eventId : Int) (E : Event) (O n : Int)
    (hE : GetEventByID eventId s.events = some E) (hO : E.userID = O) :
    ((∃ msg, UpdateEventTickets eventId n s.events = .error msg) ↔ n < 0) ∧
    (n < 0 →
      UpdateEventTickets eventId n s.events = .error "ticket count cannot be negative" ∧
      UpdateTicketCount eventId O n s =
        (⟨500, "Could not update ticket count", none, none⟩, s)) ∧
    (0 ≤ n →
      (UpdateTicketCount eventId O n s).1 =
        ⟨200, "Ticket count updated successfully", some n, some eventId⟩ ∧
      GetEventByID eventId (UpdateTicketCount eventId O n s).2.events =
        some { E with ticketsAvailable := n } ∧
      (UpdateTicketCount eventId O n s).2.registrations = s.registrations) := by
  have hauth : checkEventAuthorization E O = true := by
    simp [checkEventAuthorization, hO]
  refine ⟨⟨?_, ?_⟩, ?_, ?_⟩
  · rintro ⟨msg, hmsg⟩
    by_contra hn
    unfold UpdateEventTickets at hmsg
    rw [if_neg hn] at hmsg
    exact Except.noConfusion hmsg
  · intro hn
    exact ⟨_, by unfold UpdateEventTickets; rw [if_pos hn]⟩
  · intro hn
    have hmod : UpdateEventTickets eventId n s.events =
        .error "ticket count cannot be negative" := by
      unfold UpdateEventTickets; rw [if_pos hn]
    refine ⟨hmod, ?_⟩
    simp only [UpdateTicketCount, hE, hauth, Bool.not_true, Bool.false_eq_true, if_false, hmod]
  · intro hn
    have hmod : UpdateEventTickets eventId n s.events =
        .ok (s.events.map (fun e =>
          if e.id == eventId then { e with ticketsAvailable := n } else e)) := by
      unfold UpdateEventTickets; rw [if_neg (by omega)]
    simp only [UpdateTicketCount, hE, hauth, Bool.not_true, Bool.false_eq_true, if_false, hmod]
    exact ⟨trivial, GetEventByID_update_tickets eventId n s.events E hE, trivial⟩

/-- Witness for C1: in `sampleState`, the owner (user 10) sets the ticket
count of event 1 to 5 and receives 200 with the new count echoed. -/
theorem c1_update_ticket_count_witness :
    (UpdateTicketCount 1 10 5 sampleState).1 =
      ⟨200, "Ticket count updated successfully", some 5, some 1⟩ :=
  ((c1_update_ticket_count sampleState 1 sampleEvent 10 5 rfl rfl).2.2 (by decide)).1

/-- C2: `Register` fails with `AlreadyRegistered` exactly when the
(eventId, userId) pair is already in the registration ledger, and
otherwise inserts the pair; calling it twice consecutively on an
unregistered pair yields success then `AlreadyRegistered` (201 then 409
through the route handler). -/
theorem c2_register_duplicate
    (E : Event) (userId : Int) (regs : List (Int × Int)) (s : DBState) (eventId : Int)
    (hE : GetEventByID eventId s.events = some E) :
    ((∃ msg, E.Register userId regs = .error msg) ↔ (E.id, userId) ∈ regs) ∧
    ((E.id, userId) ∈ regs →
      E.Register userId regs = .error "User already registered for this event") ∧
    ((E.id, userId) ∉ regs →
      E.Register userId regs = .ok (regs ++ [(E.id, userId)]) ∧
      E.Register userId (regs ++ [(E.id, userId)]) =
        .error "User already registered for this event") ∧
    ((E.id, userId) ∉ s.registrations →
      (registerForEvent eventId userId s).1.status = 201 ∧
      (registerForEvent eventId userId (registerForEvent eventId userId s).2).1 =
        ⟨409, "User already registered for this event", none, none⟩) := by
  have herr : ∀ regs' : List (Int × Int), (E.id, userId) ∈ regs' →
      E.Register userId regs' = .error "User already registered for this event" := by
    intro regs' hmem
    unfold Event.Register
    rw [if_pos ((registrationCount_pos_iff E.id userId regs').mpr hmem)]
  have hok : ∀ regs' : List (Int × Int), (E.id, userId) ∉ regs' →
      E.Register userId regs' = .ok (regs' ++ [(E.id, userId)]) := by
    intro regs' hmem
    unfold Event.Register
    rw [if_neg]
    intro hpos
    exact hmem ((registrationCount_pos_iff E.id userId regs').mp hpos)
  refine ⟨⟨?_, fun hmem => ⟨_, herr regs hmem⟩⟩, herr regs, ?_, ?_⟩
  · rintro ⟨msg, hmsg⟩
    by_contra hmem
    rw [hok regs hmem] at hmsg
    exact Except.noConfusion hmsg
  · intro hmem
    exact ⟨hok regs hmem, herr _ (by simp)⟩
  · intro hmem
    have h1 : registerForEvent eventId userId s =
        (⟨201, "Registered for event successfully", none, none⟩,
          { s with registrations := s.registrations ++ [(E.id, userId)] }) := by
      simp only [registerForEvent, hE, hok s.registrations hmem]
    refine ⟨by rw [h1], ?_⟩
    rw [h1]
    simp only [registerForEvent, hE, herr (s.registrations ++ [(E.id, userId)]) (by simp)]
    rw [if_pos (by decide)]

/-- Witness for C2: user 20 registers for event 1 on an empty ledger and
the immediate second call fails as already registered. -/
theorem c2_register_duplicate_witness :
    Event.Register sampleEvent 20 [] = .ok [(1, 20)] ∧
    Event.Register sampleEvent 20 [(1, 20)] =
      .error "User already registered for this event" :=
  (c2_register_duplicate sampleEvent 20 [] sampleState 1 rfl).2.2.1 (by decide)

/-- C3: for every event E and user U who is not the owner of E, the
ticket-count route fails with `Unauthorized` for every n — including
negative n, because the ownership check runs before the payload (and so
the capacity value) is even examined — and the store is unchanged. -/
theorem c3_nonowner_unauthorized
    (s : DBState) (eventId : Int) (E : Event) (U n : Int)
    (hE : GetEventByID eventId s.events = some E) (hU : E.userID ≠ U) :
    UpdateEventTicketCount eventId U n s =
      (⟨401, "You are not authorized to update ticket count for this event", none, none⟩, s) ∧
    UpdateTicketCount eventId U n s =
      (⟨401, "You are not authorized to update ticket count for this event", none, none⟩, s) := by
  have hauth : checkEventAuthorization E U = false := by
    simp [checkEventAuthorization, hU]
  constructor <;>
    simp [UpdateEventTicketCount, UpdateTicketCount, hE, hauth]

/-- Witness for C3: non-owner 77 sends the negative count -3 for event 1
and still receives the 401 unauthorized response, not a capacity error. -/
theorem c3_nonowner_unauthorized_witness :
    UpdateEventTicketCount 1 77 (-3) sampleState =
      (⟨401, "You are not authorized to update ticket count for this event", none, none⟩,
        sampleState) :=
  (c3_nonowner_unauthorized sampleState 1 sampleEvent 77 (-3) rfl (by decide)).1

/-- C4: `CancelRegistration` fails with `NotRegistered` (mapped to 404 by
the route) and removes nothing when the (eventId, userId) pair is absent
from the ledger; when the pair is present exactly once, it succeeds and
the only side effect is the removal of that one ledger row. -/
theorem c4_cancel_registration
    (s : DBState) (eventId : Int) (E : Event) (userId : Int)
    (hE : GetEventByID eventId s.events = some E) :
    ((E.id, userId) ∉ s.registrations →
      E.CancelRegistration userId s.registrations =
        .error "Event does not exist or has already been cancelled" ∧
      cancelRegistration eventId userId s =
        (⟨404, "Event does not exist or has already been cancelled", none, none⟩, s)) ∧
    (∀ l1 l2, s.registrations = l1 ++ (E.id, userId) :: l2 →
      (E.id, userId) ∉ l1 → (E.id, userId) ∉ l2 →
      E.CancelRegistration userId s.registrations = .ok (l1 ++ l2) ∧
      cancelRegistration eventId userId s =
        (⟨200, "Cancelled successfully", none, none⟩,
          { s with registrations := l1 ++ l2 })) := by
  constructor
  · intro hmem
    have h0 : registrationCount E.id userId s.registrations = 0 :=
      (registrationCount_eq_zero_iff E.id userId s.registrations).mpr hmem
    have hc : E.CancelRegistration userId s.registrations =
        .error "Event does not exist or has already been cancelled" := by
      unfold Event.CancelRegistration
      rw [if_pos (by simp [h0])]
    refine ⟨hc, ?_⟩
    simp only [cancelRegistration, hE, hc]
    rw [if_pos (by decide)]
  · intro l1 l2 hsplit h1 h2
    have hmem : (E.id, userId) ∈ s.registrations := by
      rw [hsplit]
      exact List.mem_append_right _ (List.mem_cons_self _ _)
    have hpos : 0 < registrationCount E.id userId s.registrations :=
      (registrationCount_pos_iff E.id userId s.registrations).mpr hmem
    have hfilter : s.registrations.filter (fun r => !(r.1 == E.id && r.2 == userId)) =
        l1 ++ l2 := by
      rw [hsplit, List.filter_append, List.filter_cons]
      rw [filter_out_pair_of_not_mem E.id userId l1 h1,
        filter_out_pair_of_not_mem E.id userId l2 h2]
      simp
    have hc : E.CancelRegistration userId s.registrations = .ok (l1 ++ l2) := by
      unfold Event.CancelRegistration
      rw [if_neg (by simp only [beq_iff_eq]; omega), hfilter]
    refine ⟨hc, ?_⟩
    simp only [cancelRegistration, hE, hc]

/-- Witness for C4: cancelling for user 20 on the empty ledger of
`sampleState` yields the 404 response with the state unchanged, and on a
ledger holding exactly the (1, 20) row the cancellation succeeds removing
that row. -/
theorem c4_cancel_registration_witness :
    cancelRegistration 1 20 sampleState =
      (⟨404, "Event does not exist or has already been cancelled", none, none⟩,
        sampleState) ∧
    Event.CancelRegistration sampleEvent 20 [(1, 20)] = .ok [] :=
  ⟨((c4_cancel_registration sampleState 1 sampleEvent 20 rfl).1 (by decide)).2,
    ((c4_cancel_registration { events := [sampleEvent], registrations := [(1, 20)] }
        1 sampleEvent 20 rfl).2 [] [] rfl (by decide) (by decide)).1⟩

/-- C5: round trip — on a pair absent from the ledger, `Register`
succeeds, `CancelRegistration` then succeeds and returns the ledger to
the exact absent state, and `Register` on that restored ledger succeeds
again with the same result. -/
theorem c5_round_trip (E : Event) (userId : Int) (regs : List (Int × Int))
    (h : (E.id, userId) ∉ regs) :
    ∃ regs1 regs2, E.Register userId regs = .ok regs1 ∧
      E.CancelRegistration userId regs1 = .ok regs2 ∧
      E.Register userId regs2 = .ok regs1 ∧ regs2 = regs := by
  refine ⟨regs ++ [(E.id, userId)], regs, ?_, ?_, ?_, rfl⟩
  · unfold Event.Register
    rw [if_neg]
    intro hpos
    exact h ((registrationCount_pos_iff E.id userId regs).mp hpos)
  · have hmem : (E.id, userId) ∈ regs ++ [(E.id, userId)] := by simp
    have hpos : 0 < registrationCount E.id userId (regs ++ [(E.id, userId)]) :=
      (registrationCount_pos_iff E.id userId _).mpr hmem
    unfold Event.CancelRegistration
    rw [if_neg (by simp only [beq_iff_eq]; omega)]
    rw [List.filter_append, filter_out_pair_of_not_mem E.id userId regs h]
    simp
  · unfold Event.Register
    rw [if_neg]
    intro hpos
    exact h ((registrationCount_pos_iff E.id userId regs).mp hpos)

/-- Witness for C5: the register–cancel–register round trip for user 20 on
event 1 starting from the empty ledger. -/
theorem c5_round_trip_witness :
    ∃ regs1 regs2, Event.Register sampleEvent 20 [] = .ok regs1 ∧
      Event.CancelRegistration sampleEvent 20 regs1 = .ok regs2 ∧
      Event.Register sampleEvent 20 regs2 = .ok regs1 ∧ regs2 = [] :=
  c5_round_trip sampleEvent 20 [] (by decide)

/-- C6: registration never touches the events table — for every request,
the `registerForEvent` handler leaves the stored events (in particular the
`ticketsAvailable` counter and every other field of the target event)
exactly as they were; capacity changes only through the explicit
ticket-count update operation. -/
theorem c6_register_frame (eventId userId : Int) (s : DBState) :
    (registerForEvent eventId userId s).2.events = s.events ∧
    GetEventByID eventId (registerForEvent eventId userId s).2.events =
      GetEventByID eventId s.events := by
  have h2 : (registerForEvent eventId userId s).2.events = s.events := by
    unfold registerForEvent
    split
    · rfl
    · split
      · split <;> rfl
      · rfl
  exact ⟨h2, by rw [h2]⟩

/-- C7: `CreateEvent` with an initial `ticketsAvailable` below zero fails
with `InvalidCapacity` and persists nothing — the event store is returned
unchanged; with a non-negative count it persists exactly one new event
whose owner is the creating user. -/
theorem c7_create_event
    (payload : Event) (ownerId newId : Int) (s : DBState) :
    (payload.ticketsAvailable < 0 →
      CreateEventSvc payload ownerId newId s =
        (⟨400, "TicketsAvailable cannot be negative", none, none⟩, s)) ∧
    (0 ≤ payload.ticketsAvailable →
      CreateEventSvc payload ownerId newId s =
        (⟨201, "Event created successfully", none, none⟩,
          { s with events := s.events ++ [{ payload with userID := ownerId, id := newId }] }) ∧
      ({ payload with userID := ownerId, id := newId } : Event).userID = ownerId) := by
  constructor
  · intro hn
    unfold CreateEventSvc
    rw [if_pos hn]
  · intro hn
    refine ⟨?_, rfl⟩
    unfold CreateEventSvc Event.Save
    rw [if_neg (by omega)]

/-- Witness for C7: creating with -5 tickets is rejected leaving the store
untouched, while the valid payload is persisted owned by user 7. -/
theorem c7_create_event_witness :
    CreateEventSvc { samplePayload with ticketsAvailable := -5 } 7 2 sampleState =
      (⟨400, "TicketsAvailable cannot be negative", none, none⟩, sampleState) ∧
    (CreateEventSvc samplePayload 7 2 sampleState).2.events =
      sampleState.events ++ [{ samplePayload with userID := 7, id := 2 }] :=
  ⟨(c7_create_event { samplePayload with ticketsAvailable := -5 } 7 2 sampleState).1
      (by decide),
    by rw [((c7_create_event samplePayload 7 2 sampleState).2 (by decide)).1]⟩

/-- C8: for every event E and non-owner U, both `UpdateEvent` and
`DeleteEvent` fail with `Unauthorized` and leave the store unchanged — E
remains queryable with the same fields afterward; for the owner,
`UpdateEvent` additionally fails with `InvalidCapacity` when the new
`ticketsAvailable` is negative. -/
theorem c8_update_delete_authorization
    (s : DBState) (eventId : Int) (E : Event) (U : Int) (payload : Event)
    (hE : GetEventByID eventId s.events = some E) :
    (E.userID ≠ U →
      UpdateEventSvc eventId U payload s =
        (⟨401, "You are not authorized to update this event", none, none⟩, s) ∧
      UpdateEvent eventId U payload s =
        (⟨401, "You are not authorized to update this event", none, none⟩, s) ∧
      DeleteEvent eventId U s =
        (⟨401, "You are not authorized to delete this event", none, none⟩, s) ∧
      GetEventByID eventId (DeleteEvent eventId U s).2.events = some E) ∧
    (payload.ticketsAvailable < 0 →
      UpdateEventSvc eventId E.userID payload s =
        (⟨400, "TicketsAvailable cannot be negative", none, none⟩, s)) := by
  constructor
  · intro hU
    have hauth : checkEventAuthorization E U = false := by
      simp [checkEventAuthorization, hU]
    have hdel : DeleteEvent eventId U s =
        (⟨401, "You are not authorized to delete this event", none, none⟩, s) := by
      simp [DeleteEvent, hE, hauth]
    exact ⟨by simp [UpdateEventSvc, hE, hauth], by simp [UpdateEvent, hE, hauth], hdel,
      by rw [hdel]; exact hE⟩
  · intro hneg
    have hauth : checkEventAuthorization E E.userID = true := by
      simp [checkEventAuthorization]
    simp only [UpdateEventSvc, hE, hauth, Bool.not_true, Bool.false_eq_true, if_false]
    rw [if_pos hneg]

/-- Witness for C8: non-owner 77 cannot delete event 1 (401, store
unchanged) and the owner updating with -1 tickets hits the capacity
rejection. -/
theorem c8_update_delete_authorization_witness :
    DeleteEvent 1 77 sampleState =
      (⟨401, "You are not authorized to delete this event", none, none⟩, sampleState) ∧
    UpdateEventSvc 1 10 { samplePayload with ticketsAvailable := -1 } sampleState =
      (⟨400, "TicketsAvailable cannot be negative", none, none⟩, sampleState) :=
  ⟨((c8_update_delete_authorization sampleState 1 sampleEvent 77 samplePayload rfl).1
      (by decide)).2.2.1,
    (c8_update_delete_authorization sampleState 1 sampleEvent 77
      { samplePayload with ticketsAvailable := -1 } rfl).2 (by decide)⟩

/-- C9 (implicit): since `TicketsAvailable` carries `required` alongside
`gte=0`, a payload whose count is exactly 0 fails JSON binding (the Go
zero value counts as missing) and is rejected as malformed — 400 "Could
not parse data" — so even the owner cannot set a ticket count of 0 through
the ticket-count route, nor create or update an event with 0 tickets,
although 0 is a valid non-negative capacity. -/
theorem c9_zero_tickets_unreachable
    (s : DBState) (eventId : Int) (E : Event) (O newId : Int) (payload : Event)
    (hE : GetEventByID eventId s.events = some E) (hO : E.userID = O)
    (hp : payload.ticketsAvailable = 0) :
    bindTicketUpdateRequest 0 = false ∧
    UpdateEventTicketCount eventId O 0 s =
      (⟨400, "Could not parse data", none, none⟩, s) ∧
    CreateEvent payload O newId s = (⟨400, "Could not parse data", none, none⟩, s) ∧
    UpdateEvent eventId O payload s = (⟨400, "Could not parse data", none, none⟩, s) := by
  have hauth : checkEventAuthorization E O = true := by simp [checkEventAuthorization, hO]
  have hbind : bindEventPayload payload = false := by
    simp [bindEventPayload, hp]
  refine ⟨rfl, ?_, ?_, ?_⟩
  · simp [UpdateEventTicketCount, hE, hauth, bindTicketUpdateRequest]
  · simp [CreateEvent, hbind]
  · simp [UpdateEvent, hE, hauth, hbind]

/-- Witness for C9: the owner (user 10) asking for a ticket count of 0 on
event 1, and creating an event with 0 tickets, both rejected as malformed
payloads. -/
theorem c9_zero_tickets_unreachable_witness :
    UpdateEventTicketCount 1 10 0 sampleState =
      (⟨400, "Could not parse data", none, none⟩, sampleState) ∧
    CreateEvent { samplePayload with ticketsAvailable := 0 } 10 2 sampleState =
      (⟨400, "Could not parse data", none, none⟩, sampleState) :=
  ⟨(c9_zero_tickets_unreachable sampleState 1 sampleEvent 10 2
      { samplePayload with ticketsAvailable := 0 } rfl rfl rfl).2.1,
    (c9_zero_tickets_unreachable sampleState 1 sampleEvent 10 2
      { samplePayload with ticketsAvailable := 0 } rfl rfl rfl).2.2.1⟩

/-- C10 (implicit): for an eventId absent from the event store, every one
of `registerForEvent`, `cancelRegistration`, `UpdateEvent`, `DeleteEvent`
and `UpdateEventTicketCount` answers the internal store error 500 "Could
not fetch event" — never a NotFound for the missing event — with the store
unchanged, so a caller cannot tell a nonexistent event from a persistence
failure. -/
theorem c10_missing_event_is_store_error
    (s : DBState) (eventId userId n : Int) (payload : Event)
    (h : GetEventByID eventId s.events = none) :
    registerForEvent eventId userId s = (⟨500, "Could not fetch event", none, none⟩, s) ∧
    cancelRegistration eventId userId s = (⟨500, "Could not fetch event", none, none⟩, s) ∧
    UpdateEvent eventId userId payload s = (⟨500, "Could not fetch event", none, none⟩, s) ∧
    DeleteEvent eventId userId s = (⟨500, "Could not fetch event", none, none⟩, s) ∧
    UpdateEventTicketCount eventId userId n s =
      (⟨500, "Could not fetch event", none, none⟩, s) := by
  refine ⟨?_, ?_, ?_, ?_, ?_⟩ <;>
    simp [registerForEvent, cancelRegistration, UpdateEvent, DeleteEvent,
      UpdateEventTicketCount, h]

/-- Witness for C10: event 99 does not exist in `sampleState`; registering
for it and deleting it both answer the 500 fetch error. -/
theorem c10_missing_event_is_store_error_witness :
    registerForEvent 99 20 sampleState =
      (⟨500, "Could not fetch event", none, none⟩, sampleState) ∧
    DeleteEvent 99 20 sampleState =
      (⟨500, "Could not fetch event", none, none⟩, sampleState) :=
  ⟨(c10_missing_event_is_store_error sampleState 99 20 7 samplePayload rfl).1,
    (c10_missing_event_is_store_error sampleState 99 20 7 samplePayload rfl).2.2.2.1⟩
